import Mathlib

/-!
Verification of the DraftAI client (src/frontend/src/App.js).

The component's React state is embedded as the structure `AppState`; each
operation (`fetchDrafts`, `createNewDraft`, `saveDraft`, `loadDraft`,
`deleteDraft`, `generateAIContent`) is embedded as a function that, given the
state at invocation time and the outcomes of the network requests it issues
(passed in as oracle parameters of type `Except Unit _`), returns the ordered
trace of primitive effects the JS body performs: one `Event` per React setter
call and one per axios request.  The resulting state is the left fold of the
trace over the initial state, mirroring single-threaded execution of one
event handler.  Draft ids are modelled as `Nat`, timestamps as `Nat`.
-/

/-- A persisted draft as returned by the remote store
(fields of the JSON record used by App.js). -/
structure Draft where
  id : Nat
  title : String
  content : String
  created_at : Nat
  updated_at : Nat
deriving DecidableEq, Repr

/-- The React component state of `App` (one field per `useState` hook). -/
structure AppState where
  drafts : List Draft
  currentDraft : Option Draft
  title : String
  content : String
  isLoading : Bool
  error : Option String
  aiPrompt : String
  isGenerating : Bool
deriving DecidableEq, Repr

/-- A network request issued through axios, with the payload the JS code
sends.  `postDraft`/`putDraft` carry `{title, content}`, `postGenerate`
carries `{prompt, max_tokens}`. -/
inductive Request where
  | getDrafts : Request
  | postDraft (title content : String) : Request
  | putDraft (id : Nat) (title content : String) : Request
  | deleteReq (id : Nat) : Request
  | postGenerate (prompt : String) (maxTokens : Nat) : Request
deriving DecidableEq, Repr

/-- One primitive effect of an event handler: a React state-setter call or an
axios request.  Traces of these are what each embedded operation emits. -/
inductive Event where
  | setDrafts (l : List Draft) : Event
  | setCurrentDraft (d : Option Draft) : Event
  | setTitle (v : String) : Event
  | setContent (v : String) : Event
  | setIsLoading (b : Bool) : Event
  | setError (m : Option String) : Event
  | setAiPrompt (v : String) : Event
  | setIsGenerating (b : Bool) : Event
  | req (r : Request) : Event
deriving DecidableEq, Repr

/-- Effect of a single event on the component state (a request leaves the
state unchanged; its response is handled by the emitting operation). -/
def applyEvent (s : AppState) : Event → AppState
  | .setDrafts l => { s with drafts := l }
  | .setCurrentDraft d => { s with currentDraft := d }
  | .setTitle v => { s with title := v }
  | .setContent v => { s with content := v }
  | .setIsLoading b => { s with isLoading := b }
  | .setError m => { s with error := m }
  | .setAiPrompt v => { s with aiPrompt := v }
  | .setIsGenerating b => { s with isGenerating := b }
  | .req _ => s

/-- Run a trace of events over a state, in order. -/
def applyEvents (s : AppState) (es : List Event) : AppState :=
  es.foldl applyEvent s

/-- The requests issued along a trace, in order. -/
def requestsOf (es : List Event) : List Request :=
  es.filterMap fun e => match e with | .req r => some r | _ => none

/-- JavaScript's `String.prototype.trim`: drop whitespace from both ends.
(Executable counterpart of `String.trim`, reducing by structural recursion.) -/
def jsTrim (s : String) : String :=
  String.mk
    (((s.data.dropWhile Char.isWhitespace).reverse.dropWhile
        Char.isWhitespace).reverse)

/-- Trace of `fetchDrafts` (App.js lines 23-32): clears the error, issues
`GET /api/drafts`; on success replaces the cache wholesale, on failure sets
the fetch error message. -/
def fetchDraftsTrace (resp : Except Unit (List Draft)) : List Event :=
  [.setError none, .req .getDrafts] ++
    match resp with
    | .ok l => [.setDrafts l]
    | .error _ => [.setError (some "Failed to fetch drafts")]

/-- State after `fetchDrafts`. -/
def fetchDrafts (s : AppState) (resp : Except Unit (List Draft)) : AppState :=
  applyEvents s (fetchDraftsTrace resp)

/-- Trace of `createNewDraft` (App.js lines 34-39): unbinds the session,
clears both buffers, clears the error.  Setter order as in the JS body. -/
def createNewDraftTrace : List Event :=
  [.setCurrentDraft none, .setTitle "", .setContent "", .setError none]

/-- State after `createNewDraft`. -/
def createNewDraft (s : AppState) : AppState :=
  applyEvents s createNewDraftTrace

/-- Trace of `saveDraft` (App.js lines 41-75).  If the trimmed title is
empty, only the validation error message is set and nothing else happens.
Otherwise: loading flag on, error cleared, then a PUT to the bound draft's
id when `currentDraft` is non-null, else a POST create, each with the
current `{title, content}` buffers.  On request success the returned draft
is adopted into `currentDraft`, `fetchDrafts` runs (its failure is caught
internally), and the error is cleared again; on request failure the save
error message is set.  The loading flag is reset in `finally`. -/
def saveDraftTrace (s : AppState) (saveResp : Except Unit Draft)
    (fetchResp : Except Unit (List Draft)) : List Event :=
  if jsTrim s.title = "" then
    [.setError (some "Please enter a title for your draft")]
  else
    [.setIsLoading true, .setError none] ++
    (match s.currentDraft with
     | some d => [.req (.putDraft d.id s.title s.content)]
     | none => [.req (.postDraft s.title s.content)]) ++
    (match saveResp with
     | .ok r =>
       [.setCurrentDraft (some r)] ++ fetchDraftsTrace fetchResp ++
         [.setError none]
     | .error _ => [.setError (some "Failed to save draft")]) ++
    [.setIsLoading false]

/-- State after `saveDraft`. -/
def saveDraft (s : AppState) (saveResp : Except Unit Draft)
    (fetchResp : Except Unit (List Draft)) : AppState :=
  applyEvents s (saveDraftTrace s saveResp fetchResp)

/-- Trace of `loadDraft` (App.js lines 77-82): binds the session to the
clicked draft, copies its fields into the buffers, clears the error. -/
def loadDraftTrace (d : Draft) : List Event :=
  [.setCurrentDraft (some d), .setTitle d.title, .setContent d.content,
   .setError none]

/-- State after `loadDraft`. -/
def loadDraft (s : AppState) (d : Draft) : AppState :=
  applyEvents s (loadDraftTrace d)

/-- Trace of `deleteDraft` (App.js lines 84-101).  `confirmed` is the result
of `window.confirm`; when false the function returns immediately with no
effect.  Otherwise: error cleared, DELETE issued; on success `fetchDrafts`
runs and, if the session is bound to the deleted id, `createNewDraft` resets
it; on failure the delete error message is set. -/
def deleteDraftTrace (s : AppState) (draftId : Nat) (confirmed : Bool)
    (delResp : Except Unit Unit) (fetchResp : Except Unit (List Draft)) :
    List Event :=
  if confirmed = false then []
  else
    [.setError none, .req (.deleteReq draftId)] ++
    match delResp with
    | .ok _ =>
      fetchDraftsTrace fetchResp ++
        (match s.currentDraft with
         | some d => if d.id = draftId then createNewDraftTrace else []
         | none => [])
    | .error _ => [.setError (some "Failed to delete draft")]

/-- State after `deleteDraft`. -/
def deleteDraft (s : AppState) (draftId : Nat) (confirmed : Bool)
    (delResp : Except Unit Unit) (fetchResp : Except Unit (List Draft)) :
    AppState :=
  applyEvents s (deleteDraftTrace s draftId confirmed delResp fetchResp)

/-- Trace of `generateAIContent` (App.js lines 103-127).  If the trimmed
prompt is empty, only the validation error message is set.  Otherwise:
generating flag on, error cleared, POST `{prompt, max_tokens = 150}`; on
success the returned text is appended to the content buffer after the
two-newline separator and the prompt is cleared; on failure the generation
error message is set.  The generating flag is reset in `finally`. -/
def generateAIContentTrace (s : AppState) (genResp : Except Unit String) :
    List Event :=
  if jsTrim s.aiPrompt = "" then
    [.setError (some "Please enter a prompt for AI generation")]
  else
    [.setIsGenerating true, .setError none,
     .req (.postGenerate s.aiPrompt 150)] ++
    (match genResp with
     | .ok text => [.setContent (s.content ++ "\n\n" ++ text), .setAiPrompt ""]
     | .error _ => [.setError (some "Failed to generate AI content")]) ++
    [.setIsGenerating false]

/-- State after `generateAIContent`. -/
def generateAIContent (s : AppState) (genResp : Except Unit String) :
    AppState :=
  applyEvents s (generateAIContentTrace s genResp)

/-- Is a request a create (`POST /api/drafts`)? -/
def isCreate : Request → Bool
  | .postDraft _ _ => true
  | _ => false

/-- Is a request an update (`PUT /api/drafts/...`)? -/
def isUpdate : Request → Bool
  | .putDraft _ _ _ => true
  | _ => false

/-- A convenient concrete state for witnesses. -/
def exampleState : AppState :=
  { drafts := [], currentDraft := none, title := "T", content := "C",
    isLoading := false, error := none, aiPrompt := "", isGenerating := false }

/-- A convenient concrete draft for witnesses. -/
def exampleDraft : Draft :=
  { id := 7, title := "T", content := "C", created_at := 1, updated_at := 2 }

/-- `exampleState` with a whitespace-only title. -/
def blankTitleState : AppState := { exampleState with title := "  " }

/-- `exampleState` with a whitespace-only AI prompt. -/
def blankPromptState : AppState := { exampleState with aiPrompt := " " }

/-- `exampleState` with a non-blank AI prompt. -/
def haikuState : AppState := { exampleState with aiPrompt := "write a haiku" }

/-- C7: for every session whose title buffer is empty or whitespace-only,
`saveDraft` sets the validation error message, issues zero network requests,
and changes nothing else in the state. -/
theorem saveDraft_blank_title (s : AppState) (saveResp : Except Unit Draft)
    (fetchResp : Except Unit (List Draft)) (h : jsTrim s.title = "") :
    requestsOf (saveDraftTrace s saveResp fetchResp) = [] ∧
    saveDraft s saveResp fetchResp
      = { s with error := some "Please enter a title for your draft" } := by
  constructor <;>
    simp [saveDraft, saveDraftTrace, h, requestsOf, applyEvents, applyEvent]

/-- Witness for C7 at a concrete whitespace-only title. -/
theorem saveDraft_blank_title_witness :
    requestsOf (saveDraftTrace blankTitleState
      (Except.ok exampleDraft) (Except.ok [])) = [] ∧
    saveDraft blankTitleState (Except.ok exampleDraft) (Except.ok []) =
      { blankTitleState with
          error := some "Please enter a title for your draft" } :=
  saveDraft_blank_title blankTitleState
    (Except.ok exampleDraft) (Except.ok []) (by decide)

/-- C8: for every prompt that is empty or whitespace-only,
`generateAIContent` sets the validation error message, issues no network
request, and leaves the content buffer (and everything else) unchanged. -/
theorem generateAIContent_blank_prompt (s : AppState)
    (genResp : Except Unit String) (h : jsTrim s.aiPrompt = "") :
    requestsOf (generateAIContentTrace s genResp) = [] ∧
    generateAIContent s genResp
      = { s with error := some "Please enter a prompt for AI generation" } ∧
    (generateAIContent s genResp).content = s.content := by
  refine ⟨?_, ?_, ?_⟩ <;>
    simp [generateAIContent, generateAIContentTrace, h, requestsOf,
      applyEvents, applyEvent]

/-- Witness for C8 at a concrete whitespace-only prompt. -/
theorem generateAIContent_blank_prompt_witness :
    requestsOf (generateAIContentTrace blankPromptState
      (Except.ok "x")) = [] ∧
    generateAIContent blankPromptState (Except.ok "x") =
      { blankPromptState with
          error := some "Please enter a prompt for AI generation" } ∧
    (generateAIContent blankPromptState
      (Except.ok "x")).content = blankPromptState.content :=
  generateAIContent_blank_prompt blankPromptState (Except.ok "x") (by decide)

/-- C9: for every state with a non-blank prompt, a failing generation
request sets the generation error message and leaves the content buffer and
the prompt text unchanged (the whole state changes only in `error`, plus the
`isGenerating` flag reset by `finally`). -/
theorem generateAIContent_failure (s : AppState)
    (h : jsTrim s.aiPrompt ≠ "") :
    generateAIContent s (Except.error ()) =
      { s with
          error := some "Failed to generate AI content",
          isGenerating := false } ∧
    (generateAIContent s (Except.error ())).content = s.content ∧
    (generateAIContent s (Except.error ())).aiPrompt = s.aiPrompt := by
  refine ⟨?_, ?_, ?_⟩ <;>
    simp [generateAIContent, generateAIContentTrace, h, applyEvents,
      applyEvent]

/-- Witness for C9 at a concrete non-blank prompt. -/
theorem generateAIContent_failure_witness :
    generateAIContent haikuState (Except.error ()) =
      { haikuState with
          error := some "Failed to generate AI content",
          isGenerating := false } ∧
    (generateAIContent haikuState (Except.error ())).content =
      haikuState.content ∧
    (generateAIContent haikuState (Except.error ())).aiPrompt =
      haikuState.aiPrompt :=
  generateAIContent_failure haikuState (by decide)

/-- C10: for every state, a `deleteDraft` whose confirmation dialog is
declined emits no events at all — no network request, and the cache, the
session binding, both buffers and the error slot are all left unchanged. -/
theorem deleteDraft_declined (s : AppState) (draftId : Nat)
    (delResp : Except Unit Unit) (fetchResp : Except Unit (List Draft)) :
    deleteDraftTrace s draftId false delResp fetchResp = [] ∧
    deleteDraft s draftId false delResp fetchResp = s := by
  constructor <;> simp [deleteDraft, deleteDraftTrace, applyEvents]

/-- C1: on an unbound session with a non-blank title, `saveDraft` issues
exactly one create request, carrying the current title and content buffers;
and whenever the create request succeeds with draft `r`, the session becomes
bound to `r` (so `boundId` is the returned id, the whole record adopted). -/
theorem saveDraft_unbound_creates (s : AppState)
    (saveResp : Except Unit Draft) (fetchResp : Except Unit (List Draft))
    (hb : s.currentDraft = none) (ht : jsTrim s.title ≠ "") :
    (requestsOf (saveDraftTrace s saveResp fetchResp)).filter isCreate
      = [Request.postDraft s.title s.content] ∧
    ∀ r, saveResp = Except.ok r →
      (saveDraft s saveResp fetchResp).currentDraft = some r := by
  constructor
  · cases saveResp <;> cases fetchResp <;>
      simp [saveDraftTrace, ht, hb, fetchDraftsTrace, requestsOf, isCreate]
  · rintro r rfl
    cases fetchResp <;>
      simp [saveDraft, saveDraftTrace, ht, hb, fetchDraftsTrace,
        applyEvents, applyEvent]

/-- Witness for C1: an unbound session with title "T", content "C". -/
theorem saveDraft_unbound_creates_witness :
    (requestsOf (saveDraftTrace exampleState (Except.ok exampleDraft)
        (Except.ok []))).filter isCreate
      = [Request.postDraft exampleState.title exampleState.content] ∧
    (saveDraft exampleState (Except.ok exampleDraft)
      (Except.ok [])).currentDraft = some exampleDraft :=
  ⟨(saveDraft_unbound_creates exampleState (Except.ok exampleDraft)
      (Except.ok []) rfl (by decide)).1,
   (saveDraft_unbound_creates exampleState (Except.ok exampleDraft)
      (Except.ok []) rfl (by decide)).2 exampleDraft rfl⟩

/-- C2: on a session bound to draft `d` with a non-blank title, `saveDraft`
issues no create request and exactly one update request, addressed to `d.id`
with the current buffers; and after a successful save whose response `r1`
keeps the id (the store's Draft-identity invariant), a second save again
issues no create and exactly one update to that same id. -/
theorem saveDraft_bound_updates (s : AppState) (d : Draft)
    (saveResp : Except Unit Draft) (fetchResp : Except Unit (List Draft))
    (hb : s.currentDraft = some d) (ht : jsTrim s.title ≠ "") :
    (requestsOf (saveDraftTrace s saveResp fetchResp)).filter isCreate
      = [] ∧
    (requestsOf (saveDraftTrace s saveResp fetchResp)).filter isUpdate
      = [Request.putDraft d.id s.title s.content] ∧
    ∀ r1 f1 saveResp2 fetchResp2, r1.id = d.id →
      (requestsOf (saveDraftTrace (saveDraft s (Except.ok r1) f1)
          saveResp2 fetchResp2)).filter isCreate = [] ∧
      (requestsOf (saveDraftTrace (saveDraft s (Except.ok r1) f1)
          saveResp2 fetchResp2)).filter isUpdate
        = [Request.putDraft d.id s.title s.content] := by
  refine ⟨?_, ?_, ?_⟩
  · cases saveResp <;> cases fetchResp <;>
      simp [saveDraftTrace, ht, hb, fetchDraftsTrace, requestsOf, isCreate]
  · cases saveResp <;> cases fetchResp <;>
      simp [saveDraftTrace, ht, hb, fetchDraftsTrace, requestsOf, isUpdate]
  · intro r1 f1 saveResp2 fetchResp2 hid
    have hs1 : saveDraft s (Except.ok r1) f1
        = { s with
              currentDraft := some r1,
              drafts := match f1 with | .ok l => l | .error _ => s.drafts,
              error := none, isLoading := false } := by
      cases f1 <;>
        simp [saveDraft, saveDraftTrace, ht, hb, fetchDraftsTrace,
          applyEvents, applyEvent]
    rw [hs1]
    cases saveResp2 <;> cases fetchResp2 <;>
      simp [saveDraftTrace, ht, hid, fetchDraftsTrace, requestsOf,
        isCreate, isUpdate]

/-- Witness for C2: a session bound to `exampleDraft`, two saves in a row. -/
theorem saveDraft_bound_updates_witness :
    (requestsOf (saveDraftTrace
        { exampleState with currentDraft := some exampleDraft }
        (Except.ok exampleDraft) (Except.ok []))).filter isCreate = [] ∧
    (requestsOf (saveDraftTrace
        { exampleState with currentDraft := some exampleDraft }
        (Except.ok exampleDraft) (Except.ok []))).filter isUpdate
      = [Request.putDraft exampleDraft.id exampleState.title
          exampleState.content] ∧
    (requestsOf (saveDraftTrace
        (saveDraft { exampleState with currentDraft := some exampleDraft }
          (Except.ok exampleDraft) (Except.ok []))
        (Except.ok exampleDraft) (Except.ok []))).filter isUpdate
      = [Request.putDraft exampleDraft.id exampleState.title
          exampleState.content] :=
  ⟨(saveDraft_bound_updates
      { exampleState with currentDraft := some exampleDraft } exampleDraft
      (Except.ok exampleDraft) (Except.ok []) rfl (by decide)).1,
   (saveDraft_bound_updates
      { exampleState with currentDraft := some exampleDraft } exampleDraft
      (Except.ok exampleDraft) (Except.ok []) rfl (by decide)).2.1,
   ((saveDraft_bound_updates
      { exampleState with currentDraft := some exampleDraft } exampleDraft
      (Except.ok exampleDraft) (Except.ok []) rfl (by decide)).2.2
      exampleDraft (Except.ok []) (Except.ok exampleDraft) (Except.ok [])
      rfl).2⟩

/-- C3: when the save request (create or update branch alike) fails, the
resulting state differs from the pre-call state only in the error slot (set
to the save error message) and the `isLoading` flag reset by `finally`; in
particular `currentDraft`, the cache and both buffers are untouched. -/
theorem saveDraft_failure (s : AppState)
    (fetchResp : Except Unit (List Draft)) (ht : jsTrim s.title ≠ "") :
    saveDraft s (Except.error ()) fetchResp =
      { s with
          error := some "Failed to save draft",
          isLoading := false } ∧
    (saveDraft s (Except.error ()) fetchResp).currentDraft
      = s.currentDraft ∧
    (saveDraft s (Except.error ()) fetchResp).drafts = s.drafts := by
  have h : saveDraft s (Except.error ()) fetchResp =
      { s with
          error := some "Failed to save draft",
          isLoading := false } := by
    cases hb : s.currentDraft <;>
      simp [saveDraft, saveDraftTrace, ht, hb, applyEvents, applyEvent]
  exact ⟨h, by rw [h], by rw [h]⟩

/-- Witness for C3: a failing save on a bound session. -/
theorem saveDraft_failure_witness :
    saveDraft { exampleState with currentDraft := some exampleDraft }
      (Except.error ()) (Except.ok []) =
      { { exampleState with currentDraft := some exampleDraft } with
          error := some "Failed to save draft",
          isLoading := false } ∧
    (saveDraft { exampleState with currentDraft := some exampleDraft }
      (Except.error ()) (Except.ok [])).currentDraft = some exampleDraft ∧
    (saveDraft { exampleState with currentDraft := some exampleDraft }
      (Except.error ()) (Except.ok [])).drafts = exampleState.drafts :=
  saveDraft_failure { exampleState with currentDraft := some exampleDraft }
    (Except.ok []) (by decide)

/-- C4: on a successful generation, the new content buffer is the old one
followed by the two-newline separator (exactly one blank line) and the
returned text; the prior content is preserved verbatim as a prefix, and the
prompt field is cleared. -/
theorem generateAIContent_success (s : AppState) (text : String)
    (hp : jsTrim s.aiPrompt ≠ "") :
    (generateAIContent s (Except.ok text)).content
      = s.content ++ "\n\n" ++ text ∧
    (∃ rest, (generateAIContent s (Except.ok text)).content
      = s.content ++ rest) ∧
    (generateAIContent s (Except.ok text)).aiPrompt = "" := by
  refine ⟨?_, ⟨"\n\n" ++ text, ?_⟩, ?_⟩ <;>
    simp [generateAIContent, generateAIContentTrace, hp, applyEvents,
      applyEvent, String.append_assoc]

/-- Witness for C4 at a concrete prompt, content and generated text. -/
theorem generateAIContent_success_witness :
    (generateAIContent haikuState (Except.ok "gen")).content
      = haikuState.content ++ "\n\n" ++ "gen" ∧
    (∃ rest, (generateAIContent haikuState (Except.ok "gen")).content
      = haikuState.content ++ rest) ∧
    (generateAIContent haikuState (Except.ok "gen")).aiPrompt = "" :=
  generateAIContent_success haikuState "gen" (by decide)

/-- `exampleState` bound to `exampleDraft`. -/
def boundState : AppState :=
  { exampleState with currentDraft := some exampleDraft }

/-- `exampleState` currently displaying an error message. -/
def staleErrorState : AppState :=
  { exampleState with error := some "Failed to save draft" }

/-- Does the trace clear the error slot before its first network request?
True when the first of a request or an error-clear along the trace is the
clear (vacuously true for traces without requests). -/
def clearBeforeFirstReq : List Event → Bool
  | [] => true
  | .req _ :: _ => false
  | .setError none :: _ => true
  | _ :: es => clearBeforeFirstReq es

/-- C5 counterexample: a user-initiated `deleteDraft` whose confirmation
dialog is declined performs no error clear at all — its trace is empty, so
it contains no clear event —and the previously displayed (stale) error
message is still shown afterwards. -/
theorem deleteDraft_declined_no_clear_counterexample :
    Event.setError none ∉
      deleteDraftTrace staleErrorState 3 false (Except.ok ())
        (Except.ok []) ∧
    (deleteDraft staleErrorState 3 false (Except.ok ())
        (Except.ok [])).error = some "Failed to save draft" := by
  constructor
  · simp [deleteDraftTrace]
  · simp [deleteDraft, deleteDraftTrace, applyEvents, staleErrorState]

/-- C5 amended: every user-initiated operation that issues a network request
clears the error slot before its first request (operations that abort before
any network work — a validation failure, a declined delete confirmation — do
not clear it first; a validation failure replaces the error with its own
message, and `createNewDraft`/`loadDraft`, which issue no requests, leave
the error slot cleared when they finish). -/
theorem error_cleared_before_first_request (s : AppState) (draftId : Nat)
    (saveResp : Except Unit Draft) (delResp : Except Unit Unit)
    (genResp : Except Unit String) (fetchResp : Except Unit (List Draft))
    (d : Draft) :
    clearBeforeFirstReq (fetchDraftsTrace fetchResp) = true ∧
    clearBeforeFirstReq (saveDraftTrace s saveResp fetchResp) = true ∧
    clearBeforeFirstReq
      (deleteDraftTrace s draftId true delResp fetchResp) = true ∧
    clearBeforeFirstReq (generateAIContentTrace s genResp) = true ∧
    (createNewDraft s).error = none ∧
    (loadDraft s d).error = none := by
  refine ⟨?_, ?_, ?_, ?_, ?_, ?_⟩
  · cases fetchResp <;> simp [fetchDraftsTrace, clearBeforeFirstReq]
  · by_cases ht : jsTrim s.title = "" <;>
      simp [saveDraftTrace, ht, clearBeforeFirstReq]
  · simp [deleteDraftTrace, clearBeforeFirstReq]
  · by_cases hp : jsTrim s.aiPrompt = "" <;>
      simp [generateAIContentTrace, hp, clearBeforeFirstReq]
  · simp [createNewDraft, createNewDraftTrace, applyEvents, applyEvent]
  · simp [loadDraft, loadDraftTrace, applyEvents, applyEvent]

/-- C6: a confirmed `deleteDraft draftId` issues the delete request first;
on its success it also issues the cache-refreshing `GET` and, when the
session is bound to the deleted id, resets the session to unbound with empty
buffers; on its failure only the delete error message is set — the cache and
the whole session are untouched. -/
theorem deleteDraft_confirmed_spec (s : AppState) (draftId : Nat)
    (delResp : Except Unit Unit) (fetchResp : Except Unit (List Draft)) :
    (requestsOf (deleteDraftTrace s draftId true delResp fetchResp)).head?
      = some (Request.deleteReq draftId) ∧
    (delResp = Except.ok () →
      Request.getDrafts ∈
        requestsOf (deleteDraftTrace s draftId true delResp fetchResp) ∧
      ∀ d, s.currentDraft = some d → d.id = draftId →
        (deleteDraft s draftId true delResp fetchResp).currentDraft
          = none ∧
        (deleteDraft s draftId true delResp fetchResp).title = "" ∧
        (deleteDraft s draftId true delResp fetchResp).content = "") ∧
    (delResp = Except.error () →
      deleteDraft s draftId true delResp fetchResp
        = { s with error := some "Failed to delete draft" }) := by
  refine ⟨?_, ?_, ?_⟩
  · cases delResp <;> cases fetchResp <;>
      simp [deleteDraftTrace, fetchDraftsTrace, requestsOf]
  · rintro rfl
    constructor
    · cases fetchResp <;> cases hb : s.currentDraft <;>
        simp [deleteDraftTrace, fetchDraftsTrace, requestsOf, hb,
          createNewDraftTrace]
    · intro d hb hid
      refine ⟨?_, ?_, ?_⟩ <;>
        cases fetchResp <;>
          simp [deleteDraft, deleteDraftTrace, fetchDraftsTrace, hb, hid,
            createNewDraftTrace, applyEvents, applyEvent]
  · rintro rfl
    simp [deleteDraft, deleteDraftTrace, applyEvents, applyEvent]

/-- Witness for C6: deleting the bound draft (id 7) on success resets the
session; a failing delete only sets the error message. -/
theorem deleteDraft_confirmed_witness :
    (requestsOf (deleteDraftTrace boundState 7 true (Except.ok ())
        (Except.ok []))).head? = some (Request.deleteReq 7) ∧
    Request.getDrafts ∈
      requestsOf (deleteDraftTrace boundState 7 true (Except.ok ())
        (Except.ok [])) ∧
    (deleteDraft boundState 7 true (Except.ok ())
      (Except.ok [])).currentDraft = none ∧
    (deleteDraft boundState 7 true (Except.ok ()) (Except.ok [])).title
      = "" ∧
    (deleteDraft boundState 7 true (Except.ok ()) (Except.ok [])).content
      = "" ∧
    deleteDraft boundState 7 true (Except.error ()) (Except.ok [])
      = { boundState with error := some "Failed to delete draft" } :=
  ⟨(deleteDraft_confirmed_spec boundState 7 (Except.ok ())
      (Except.ok [])).1,
   ((deleteDraft_confirmed_spec boundState 7 (Except.ok ())
      (Except.ok [])).2.1 rfl).1,
   ((deleteDraft_confirmed_spec boundState 7 (Except.ok ())
      (Except.ok [])).2.1 rfl).2 exampleDraft rfl rfl |>.1,
   ((deleteDraft_confirmed_spec boundState 7 (Except.ok ())
      (Except.ok [])).2.1 rfl).2 exampleDraft rfl rfl |>.2.1,
   ((deleteDraft_confirmed_spec boundState 7 (Except.ok ())
      (Except.ok [])).2.1 rfl).2 exampleDraft rfl rfl |>.2.2,
   (deleteDraft_confirmed_spec boundState 7 (Except.error ())
      (Except.ok [])).2.2 rfl⟩
